import Mathlib

/-!
Verification of the STAC interchange layer of the unity-py client library.

The development shallowly embeds the `Collection` / `Dataset` / `DataFile`
data model and the STAC conversion algorithms of
`unity_sds_client/resources/collection.py`,
`unity_sds_client/resources/dataset.py` (the copy shipped under
`libs/unity-py`), `unity_sds_client/resources/data_file.py` and the
DataFile-construction logic of
`unity_sds_client/services/data_service.py::get_collection_data`.

Python strings are modelled as Lean `String` (a list of characters), Python
`dict`s as insertion-ordered association lists with unique keys, JSON values
as the inductive `JVal`, Python `None`-or-string as `Option String`, and
raised exceptions as the error side of `Except PyError`.  The external
collaborators (pystac, `json`, `os.path`, `dateutil.parser`) are modelled by
explicit Lean functions whose doc comments state the external behaviour they
capture; the file format on disk is modelled by the abstract documents
`SCatalog` / `SItem` / `SAsset` that `to_stac` produces and `from_stac`
consumes.
-/

namespace UnityPy

/-- A JSON-like property value (the payload of item/dataset properties). -/
inductive JVal
  | null
  | str (s : String)
  | num (n : Int)
  | boolean (b : Bool)
deriving DecidableEq, Repr

/-! ## Models of Python string / path primitives -/

/-- Model of Python `str.startswith(p)`: `p` is a prefix of `s`
(character-list prefix test). -/
def pyStartsWith (s p : String) : Bool :=
  p.data.isPrefixOf s.data

/-- Model of Python `str.endswith(p)`: `p` is a suffix of `s`. -/
def pyEndsWith (s p : String) : Bool :=
  p.data.isSuffixOf s.data

/-- Model of Python `str.rstrip('/')`: drop every trailing `'/'`. -/
def pyRstripSlash (s : String) : String :=
  ⟨(s.data.reverse.dropWhile (fun c => c == '/')).reverse⟩

/-- Scanner for `pyReplace`: while `k` characters of a previous match are
still pending they are consumed without being emitted; at `k = 0` a
leftmost occurrence of `pat` is replaced by `rep` and the remaining
`pat.length - 1` matched characters become pending.  For a non-empty `pat`
this is the left-to-right non-overlapping replacement Python `str.replace`
performs. -/
def replaceCoreAux (pat rep : List Char) : List Char → Nat → List Char
  | [], _ => []
  | c :: rest, 0 =>
    if pat.isPrefixOf (c :: rest) then
      rep ++ replaceCoreAux pat rep rest (pat.length - 1)
    else
      c :: replaceCoreAux pat rep rest 0
  | _ :: rest, k + 1 => replaceCoreAux pat rep rest k

/-- Replace every leftmost non-overlapping occurrence of `pat` by `rep`
(used with a non-empty `pat`). -/
def replaceCore (pat rep s : List Char) : List Char :=
  replaceCoreAux pat rep s 0

/-- Model of Python `str.replace(old, new)`.  For a non-empty `old` every
leftmost occurrence is replaced; for an empty `old`, Python inserts `new`
between every character and at both ends. -/
def pyReplace (s old new : String) : String :=
  if old.data = [] then
    ⟨(s.data.flatMap (fun c => new.data ++ [c])) ++ new.data⟩
  else
    ⟨replaceCore old.data new.data s.data⟩

/-- Model of `os.path.isabs`: the path starts with `'/'`. -/
def pyIsAbs (p : String) : Bool :=
  pyStartsWith p "/"

/-- Model of `os.path.basename`: the part of the path after the last `'/'`. -/
def pyBasename (p : String) : String :=
  ⟨(p.data.splitOn '/').getLastD []⟩

/-- Model of `os.path.join(a, b)` for two components on POSIX: an absolute
`b` discards `a`; otherwise `b` is appended to `a` with a separating `'/'`
unless `a` is empty or already ends with one. -/
def pyJoin (a b : String) : String :=
  if pyStartsWith b "/" then b
  else if a = "" then b
  else if pyEndsWith a "/" then a ++ b
  else a ++ "/" ++ b

/-! ## Models of Python dicts (insertion-ordered association lists) -/

/-- Model of Python `d[k] = v`: replace the value at an existing key in
place, otherwise append the pair at the end. -/
def pySet {α : Type} : List (String × α) → String → α → List (String × α)
  | [], k, v => [(k, v)]
  | (k', v') :: t, k, v => if k' = k then (k, v) :: t else (k', v') :: pySet t k v

/-- Model of Python `d.get(k, None)`. -/
def pyGet {α : Type} : List (String × α) → String → Option α
  | [], _ => none
  | (k', v') :: t, k => if k' = k then some v' else pyGet t k

/-- Model of Python `d.update(m)`: assign every pair of `m`, in order,
into `d`. -/
def pyUpdate {α : Type} (d m : List (String × α)) : List (String × α) :=
  m.foldl (fun acc kv => pySet acc kv.1 kv.2) d

/-! ## Exceptions

`PyError` models the Python exceptions that flow through the STAC layer:
the pystac `STACTypeError`, the built-in `FileNotFoundError` and
`TypeError`, `json.decoder.JSONDecodeError`, dateutil's `ParserError`, and
the library's own `UnityException` (`unity_sds_client/unity_exception.py`).
-/

inductive PyError
  | fileNotFoundError (msg : String)
  | stacTypeError (msg : String)
  | jsonDecodeError (msg : String)
  | typeError (msg : String)
  | parserError (msg : String)
  | unityException (msg : String)
deriving DecidableEq, Repr

/-- Model of the external `dateutil.parser` accepting a timestamp string:
the exact language dateutil accepts is irrelevant to the claims; the model
keeps the two facts they rely on — some strings parse and some do not. -/
def validTimestamp (s : String) : Bool :=
  s.data.any (fun c => c.isDigit)

/-- Model of `dateutil.parser.parse` applied to a Python value that is
either `None` or a string: `None` raises `TypeError` (dateutil rejects
non-string input), an unparseable string raises `ParserError`, and a
parseable string yields a datetime (represented by the accepted string). -/
def dateutilParse : Option String → Except PyError String
  | none => .error (.typeError "Parser must be a string or character stream, not NoneType")
  | some s => if validTimestamp s then .ok s else .error (.parserError s)

/-! ## The data model (`data_file.py`, `dataset.py`, `collection.py`) -/

/-- `DataFile` (`unity_sds_client/resources/data_file.py`): one located,
role-tagged asset reference. -/
structure DataFile where
  type : String
  location : String
  roles : List String
  title : String
  description : String
deriving DecidableEq, Repr

/-- `Dataset` (`unity_sds_client/resources/dataset.py`): one granule with
its datafiles and free-form properties. -/
structure Dataset where
  id : String
  collection_id : Option String
  data_begin_time : Option String
  data_end_time : Option String
  data_create_time : Option String
  datafiles : List DataFile
  properties : List (String × JVal)
  geometry : Option JVal
  bbox : Option JVal
deriving DecidableEq, Repr

/-- `Dataset.__init__`: stores the identity and time fields, starts with no
datafiles, no geometry/bbox, and copies only the non-reserved keys of the
optional `properties` argument (`start_datetime`, `created`,
`end_datetime` are excluded). -/
def Dataset.init (name : String) (collection_id : Option String)
    (start_time end_time creation_time : Option String)
    (properties : Option (List (String × JVal))) : Dataset :=
  { id := name
    collection_id := collection_id
    data_begin_time := start_time
    data_end_time := end_time
    data_create_time := creation_time
    datafiles := []
    properties :=
      match properties with
      | none => []
      | some props =>
        props.foldl
          (fun acc kv =>
            if ["start_datetime", "created", "end_datetime"].contains kv.1 then acc
            else pySet acc kv.1 kv.2)
          []
    geometry := none
    bbox := none }

/-- `Dataset.add_data_file`: append the datafile. -/
def Dataset.add_data_file (ds : Dataset) (datafile : DataFile) : Dataset :=
  { ds with datafiles := ds.datafiles ++ [datafile] }

/-- `Dataset.add_property`: `self.properties[key] = value`. -/
def Dataset.add_property (ds : Dataset) (key : String) (value : JVal) : Dataset :=
  { ds with properties := pySet ds.properties key value }

/-- `Collection` (`unity_sds_client/resources/collection.py`): a collection
identifier plus its ordered datasets. -/
structure Collection where
  collection_id : Option String
  datasets : List Dataset
deriving DecidableEq, Repr

/-- `Collection.__init__`. -/
def Collection.init (id : Option String) : Collection :=
  { collection_id := id, datasets := [] }

/-- `Collection.add_dataset`: append the dataset. -/
def Collection.add_dataset (c : Collection) (dataset : Dataset) : Collection :=
  { c with datasets := c.datasets ++ [dataset] }

/-- `Collection.data_files(roles)` (collection.py lines 47-63): flatten the
datafiles of all datasets; with a non-empty `roles` argument keep only the
files whose role set intersects it. -/
def Collection.data_files (c : Collection) (roles : List String) : List DataFile :=
  if roles.length == 0 then
    (c.datasets.map (fun x => x.datafiles)).flatten
  else
    ((c.datasets.map (fun x => x.datafiles)).flatten).filter
      (fun file => file.roles.any (fun r => roles.contains r))

/-- `Collection.data_locations(roles)` (collection.py lines 65-81): the same
comprehension as `data_files` but yielding `file.location`. -/
def Collection.data_locations (c : Collection) (roles : List String) : List String :=
  if roles.length == 0 then
    ((c.datasets.map (fun x => x.datafiles)).flatten).map (fun file => file.location)
  else
    (((c.datasets.map (fun x => x.datafiles)).flatten).filter
      (fun file => file.roles.any (fun r => roles.contains r))).map (fun file => file.location)

/-- `Collection.is_uri` (collection.py lines 83-87):
`path.startswith(("http:", "https:", "s3:"))`. -/
def Collection.is_uri (path : String) : Bool :=
  pyStartsWith path "http:" || pyStartsWith path "https:" || pyStartsWith path "s3:"

/-! ## The STAC document model

Abstract form of the STAC documents that `to_stac` writes and `from_stac`
reads.  `SAsset` is a serialized asset (pystac `Asset`), `SItem` a
serialized item / GeoJSON feature (pystac `Item`), `SCatalog` a root
catalog together with the items reachable from it
(`root_catalog.get_all_items()` enumerates them in document order).
Optional fields are `none` when the corresponding JSON key is absent or
null. -/

structure SAsset where
  href : String
  media_type : Option String
  roles : Option (List String)
  title : Option String
  description : Option String
deriving DecidableEq, Repr

structure SItem where
  id : String
  collection_id : Option String
  properties : List (String × JVal)
  assets : List (String × SAsset)
  geometry : Option JVal
  bbox : Option JVal
deriving DecidableEq, Repr

structure SCatalog where
  id : Option String
  items : List SItem
deriving DecidableEq, Repr

/-! ## The STAC writer — `Collection.to_stac` (collection.py lines 89-149)

The writer is modelled as a function from the collection, the output
directory and the current UTC timestamp (the source reads the clock with
`datetime.now`; the embedding passes that reading explicitly) to either the
written catalog document or the exception the write raises.  pystac's
`normalize_hrefs`/`save` with `TemplateLayoutStrategy(item_template="")`
and `CatalogType.SELF_CONTAINED` lays the item files flat next to the root
`catalog.json` under the output directory and does not alter asset hrefs,
so the written content is exactly the `SCatalog` built here. -/

/-- An `Option String` value placed into a JSON properties map
(`None` becomes JSON null). -/
def optStr : Option String → JVal
  | none => .null
  | some s => .str s

/-- The asset href computed for a datafile (collection.py lines 125-128):
a URI location is kept verbatim, any other location has every occurrence of
the output directory replaced by `"."` (Python `str.replace`). -/
def assetHrefOf (data_dir : String) (df : DataFile) : String :=
  if Collection.is_uri df.location then df.location
  else pyReplace df.location data_dir "."

/-- The asset key computed from the href (collection.py lines 130-133):
the href itself, reduced to its basename when it starts with `"./"`. -/
def assetKeyOf (item_location : String) : String :=
  if pyStartsWith item_location "./" then pyBasename item_location
  else item_location

/-- The serialized asset added for a datafile (collection.py lines 135-143). -/
def toStacAsset (data_dir : String) (df : DataFile) : SAsset :=
  { href := assetHrefOf data_dir df
    media_type := none
    roles := some df.roles
    title := some (df.type ++ " file")
    description := some ""
    }

/-- The assets of a written item: `item.add_asset` for each datafile in
order; pystac stores assets in a dict keyed by the asset key, so a repeated
key replaces the earlier asset in place. -/
def itemAssets (data_dir : String) (dfs : List DataFile) : List (String × SAsset) :=
  dfs.foldl
    (fun acc df => pySet acc (assetKeyOf (assetHrefOf data_dir df)) (toStacAsset data_dir df))
    []

/-- The item written for a dataset (collection.py lines 105-143), given
that parsing `data_begin_time` succeeded: base properties overlaid with the
dataset's free-form properties (`item.properties.update`), the dataset's
identity, geometry, bbox and assets. -/
def itemBody (data_dir now : String) (ds : Dataset) : SItem :=
  { id := ds.id
    collection_id := ds.collection_id
    properties :=
      pyUpdate
        [("datetime", optStr ds.data_begin_time),
         ("start_datetime", optStr ds.data_begin_time),
         ("end_datetime", optStr ds.data_end_time),
         ("created", match ds.data_create_time with
                     | some t => .str t
                     | none => .str now),
         ("updated", .str now)]
        ds.properties
    assets := itemAssets data_dir ds.datafiles
    geometry := ds.geometry
    bbox := ds.bbox }

/-- One iteration of the dataset loop of `to_stac`: building the `Item`
evaluates `date_parser.parse(dataset.data_begin_time)`, which raises on a
null or unparseable timestamp; otherwise the item is produced. -/
def itemOfDataset (data_dir now : String) (ds : Dataset) : Except PyError SItem :=
  (dateutilParse ds.data_begin_time).bind (fun _ => .ok (itemBody data_dir now ds))

/-- The dataset loop of `to_stac`: items are built in dataset order and the
first raised exception aborts the whole write (the catalog is only saved
after the loop). -/
def buildItems (data_dir now : String) : List Dataset → Except PyError (List SItem)
  | [] => .ok []
  | ds :: rest =>
    (itemOfDataset data_dir now ds).bind (fun item =>
      (buildItems data_dir now rest).bind (fun items => .ok (item :: items)))

/-- `Collection.to_stac(collection, data_dir)`: strip trailing `'/'` from
the output directory, build one item per dataset (raising on the first
unparseable `data_begin_time`), and save the catalog — which either
succeeds as a whole, yielding the written document, or raises. -/
def Collection.to_stac (collection : Collection) (data_dir : String) (now : String) :
    Except PyError SCatalog :=
  let d := pyRstripSlash data_dir
  (buildItems d now collection.datasets).bind (fun items =>
    .ok { id := collection.collection_id, items := items })

/-! ## The STAC reader — `Collection.from_stac` (collection.py lines 152-240)

The reader's input file is modelled by `StacSource`, which records what the
external parsers find in it; the second argument of the embedded reader is
`os.path.abspath(os.path.dirname(stac_file))`, the directory the source
computes from the path it is given. -/

/-- What the file handed to `from_stac` contains. -/
inductive StacSource
  /-- The path does not exist. -/
  | missing
  /-- The file exists but is not decodable as JSON. -/
  | notJson
  /-- A STAC Catalog document; `items` are the items reachable from it. -/
  | catalogDoc (cat : SCatalog)
  /-- A GeoJSON FeatureCollection of STAC Items (an ItemCollection). -/
  | itemCollectionDoc (features : List SItem)
  /-- Valid JSON that is structurally neither a Catalog nor an
  ItemCollection. -/
  | otherJson
deriving DecidableEq, Repr

/-- Model of `pystac.Catalog.from_file`: a missing file raises
`FileNotFoundError`, undecodable content raises `JSONDecodeError`, JSON
that does not represent a Catalog raises `STACTypeError`, and a catalog
document is returned. -/
def catalogFromFile : StacSource → Except PyError SCatalog
  | .missing => .error (.fileNotFoundError "No such file or directory")
  | .notJson => .error (.jsonDecodeError "Expecting value")
  | .catalogDoc cat => .ok cat
  | .itemCollectionDoc _ => .error (.stacTypeError "JSON does not represent a STACObject instance")
  | .otherJson => .error (.stacTypeError "JSON does not represent a STACObject instance")

/-- `data['features'][0]['collection']` guarded by `try/except: pass`
(collection.py lines 187-190): the first feature's collection value when
there is a first feature carrying one, otherwise the id stays `None`. -/
def firstFeatureCollection : List SItem → Option String
  | [] => none
  | f :: _ => f.collection_id

/-- The ItemCollection fallback segment (collection.py lines 183-192):
`open` + `json.load` raise on a missing or undecodable file,
`ItemCollection.from_dict` raises `STACTypeError` on JSON that is not a
FeatureCollection, and otherwise the detected id and the items are
produced. -/
def fromStacFallback : StacSource → Except PyError (Option String × List SItem)
  | .missing => .error (.fileNotFoundError "No such file or directory")
  | .notJson => .error (.jsonDecodeError "Expecting value")
  | .catalogDoc _ => .error (.stacTypeError "JSON does not represent a STAC ItemCollection instance")
  | .itemCollectionDoc features => .ok (firstFeatureCollection features, features)
  | .otherJson => .error (.stacTypeError "JSON does not represent a STAC ItemCollection instance")

/-- `item.properties.get(k, None)` restricted to the string-valued reads
the reader performs: absent keys and JSON nulls read as `None`. -/
def propGetStr (props : List (String × JVal)) (k : String) : Option String :=
  match pyGet props k with
  | some (.str s) => some s
  | _ => none

/-- The datafile built for one asset of a parsed item (collection.py lines
213-229): defaults for missing media type / roles / title / description,
roles defaulted from the asset key when empty and the key is exactly
`"data"` or `"metadata"`, and the href resolved to a location — kept
verbatim when it is a URI or an absolute path, otherwise joined onto the
directory of the STAC file. -/
def stacDataFileOf (stac_dir : String) (asset_key : String) (asset : SAsset) : DataFile :=
  let asset_type := asset.media_type.getD ""
  let asset_roles0 := asset.roles.getD []
  let asset_title := asset.title.getD ""
  let asset_description := asset.description.getD ""
  let asset_roles :=
    if asset_roles0.length == 0 && ["data", "metadata"].contains asset_key then [asset_key]
    else asset_roles0
  let location :=
    if Collection.is_uri asset.href then asset.href
    else if pyIsAbs asset.href then asset.href
    else pyJoin stac_dir asset.href
  { type := asset_type
    location := location
    roles := asset_roles
    title := asset_title
    description := asset_description }

/-- The dataset built for one parsed item (collection.py lines 196-231):
the dataset takes the detected collection id unless the item carries its
own, different collection id; bbox/geometry are copied, all item
properties are merged onto the dataset's properties, and one datafile is
added per asset in asset order. -/
def datasetOfItem (detected : Option String) (stac_dir : String) (item : SItem) : Dataset :=
  let ds := Dataset.init item.id detected (propGetStr item.properties "start_datetime")
      (propGetStr item.properties "end_datetime") (propGetStr item.properties "created") none
  let ds :=
    if item.collection_id.isSome && item.collection_id ≠ detected then
      Dataset.init item.id item.collection_id (propGetStr item.properties "start_datetime")
        (propGetStr item.properties "end_datetime") (propGetStr item.properties "created") none
    else ds
  let ds := { ds with bbox := item.bbox, geometry := item.geometry }
  let ds := { ds with properties := pyUpdate ds.properties item.properties }
  item.assets.foldl
    (fun d kv => d.add_data_file (stacDataFileOf stac_dir kv.1 kv.2))
    ds

/-- The collection assembled from the detected id and the parsed items
(collection.py lines 194-231). -/
def buildCollection (detected : Option String) (stac_dir : String) (items : List SItem) :
    Collection :=
  { collection_id := detected, datasets := items.map (datasetOfItem detected stac_dir) }

/-- The body of `from_stac` before the outer exception handler, paired with
a flag recording whether the ItemCollection fallback was entered: the
catalog parse is attempted first, only a `STACTypeError` from it is
swallowed (leaving `root_catalog` as `None` and triggering the fallback),
and any other exception propagates. -/
def fromStacCore (src : StacSource) (stac_dir : String) :
    Except PyError Collection × Bool :=
  match catalogFromFile src with
  | .ok cat => (.ok (buildCollection cat.id stac_dir cat.items), false)
  | .error (.stacTypeError _) =>
    (match fromStacFallback src with
     | .ok (id, items) => .ok (buildCollection id stac_dir items)
     | .error e => .error e,
     true)
  | .error e => (.error e, false)

/-- The outer exception handler of `from_stac` (collection.py lines
233-240): `FileNotFoundError`, `STACTypeError` and `JSONDecodeError` are
re-raised as `UnityException(str(e))`; every other exception becomes the
generic `UnityException`. -/
def wrapStacError : PyError → PyError
  | .fileNotFoundError m => .unityException m
  | .stacTypeError m => .unityException m
  | .jsonDecodeError m => .unityException m
  | _ => .unityException "An unknown error occured creating collection from stac"

/-- `Collection.from_stac(stac_file)`: the body above with its failures
wrapped by the outer handler.  `stac_dir` stands for
`os.path.abspath(os.path.dirname(stac_file))`. -/
def Collection.from_stac (src : StacSource) (stac_dir : String) : Except PyError Collection :=
  match (fromStacCore src stac_dir).1 with
  | .ok c => .ok c
  | .error e => .error (wrapStacError e)

/-- Whether the call entered the ItemCollection fallback. -/
def fromStacAttemptedFallback (src : StacSource) (stac_dir : String) : Bool :=
  (fromStacCore src stac_dir).2

/-! ## The remote-data-service mapper
(`data_service.py::get_collection_data`, lines 77-90)

The datafile built from one decoded-JSON asset of a feature returned by
the remote data service.  The JSON asset dict is modelled by `SAsset`
(`media_type` holds the `'type'` key; `none` models an absent key). -/

/-- `DataService.get_collection_data` datafile construction (data_service.py
lines 81-86): `.get` defaults for type/title/description, and roles taken
verbatim when the `'roles'` key is present, else `["metadata"]` for the
keys `'metadata__cmr'` / `'metadata__data'`, else `[asset_key]`. -/
def dataServiceDataFileOf (asset_key : String) (asset : SAsset) : DataFile :=
  let location := asset.href
  let file_type := asset.media_type.getD ""
  let title := asset.title.getD ""
  let description := asset.description.getD ""
  let roles :=
    match asset.roles with
    | some r => r
    | none =>
      if ["metadata__cmr", "metadata__data"].contains asset_key then ["metadata"]
      else [asset_key]
  { type := file_type
    location := location
    roles := roles
    title := title
    description := description }

/-! ## Helper lemmas -/

theorem pyGet_pySet_self {α : Type} (l : List (String × α)) (k : String) (v : α) :
    pyGet (pySet l k v) k = some v := by
  induction l with
  | nil => simp [pySet, pyGet]
  | cons hd t ih =>
    obtain ⟨k', v'⟩ := hd
    by_cases h : k' = k
    · simp [pySet, pyGet, h]
    · simp [pySet, pyGet, h, ih]

theorem pyGet_pySet_ne {α : Type} (l : List (String × α)) (k k0 : String) (v : α)
    (h : k ≠ k0) : pyGet (pySet l k v) k0 = pyGet l k0 := by
  induction l with
  | nil => simp [pySet, pyGet, h]
  | cons hd t ih =>
    obtain ⟨k', v'⟩ := hd
    by_cases hk : k' = k
    · subst hk
      simp [pySet, pyGet, h]
    · by_cases hk0 : k' = k0
      · simp [pySet, pyGet, hk, hk0, Ne.symm h]
      · simp [pySet, pyGet, hk, hk0, ih]

theorem pySet_mem {α : Type} (l : List (String × α)) (k : String) (v : α)
    (x : String × α) (h : x ∈ pySet l k v) : x ∈ l ∨ x = (k, v) := by
  induction l with
  | nil =>
    simp [pySet] at h
    exact Or.inr h
  | cons hd t ih =>
    obtain ⟨k', v'⟩ := hd
    by_cases hk : k' = k
    · simp [pySet, hk] at h
      rcases h with h | h
      · exact Or.inr h
      · exact Or.inl (List.mem_cons_of_mem _ h)
    · simp [pySet, hk] at h
      rcases h with h | h
      · exact Or.inl (by simp [h])
      · rcases ih h with h' | h'
        · exact Or.inl (List.mem_cons_of_mem _ h')
        · exact Or.inr h'

theorem datasetInit_reserved_none (kRes : String)
    (hres : (["start_datetime", "created", "end_datetime"].contains kRes) = true)
    (name : String) (cid : Option String) (st et ct : Option String)
    (props : List (String × JVal)) :
    pyGet (Dataset.init name cid st et ct (some props)).properties kRes = none := by
  simp only [Dataset.init]
  suffices h : ∀ (acc : List (String × JVal)), pyGet acc kRes = none →
      pyGet (props.foldl
        (fun acc kv =>
          if ["start_datetime", "created", "end_datetime"].contains kv.1 then acc
          else pySet acc kv.1 kv.2) acc) kRes = none by
    exact h [] rfl
  induction props with
  | nil => intro acc hacc; exact hacc
  | cons kv t ih =>
    intro acc hacc
    simp only [List.foldl_cons]
    by_cases hk : (["start_datetime", "created", "end_datetime"].contains kv.1) = true
    · rw [if_pos hk]
      exact ih acc hacc
    · rw [if_neg (by simpa using hk)]
      refine ih _ ?_
      rw [pyGet_pySet_ne]
      · exact hacc
      · intro he
        rw [he] at hk
        exact hk hres

theorem replaceCoreAux_skip (pat rep : List Char) :
    ∀ (u t : List Char), replaceCoreAux pat rep (u ++ t) u.length =
      replaceCoreAux pat rep t 0 := by
  intro u
  induction u with
  | nil => intro t; rfl
  | cons a u ih =>
    intro t
    simp only [List.cons_append, List.length_cons, replaceCoreAux]
    exact ih t

theorem replaceCore_append_self (pat rep t : List Char) (hp : pat ≠ []) :
    replaceCore pat rep (pat ++ t) = rep ++ replaceCore pat rep t := by
  cases pat with
  | nil => exact absurd rfl hp
  | cons p ps =>
    have hpre : (p :: ps).isPrefixOf (p :: (ps ++ t)) = true := by
      rw [show p :: (ps ++ t) = (p :: ps) ++ t from rfl, List.isPrefixOf_iff_prefix ]
      exact List.prefix_append _ _
    show replaceCoreAux (p :: ps) rep (p :: (ps ++ t)) 0 = rep ++ replaceCore (p :: ps) rep t
    rw [replaceCoreAux, if_pos hpre]
    congr 1
    simpa using replaceCoreAux_skip (p :: ps) rep ps t

theorem dateutilParse_error_kind (o : Option String) (e : PyError)
    (h : dateutilParse o = .error e) : ∃ m, e = .typeError m ∨ e = .parserError m := by
  cases o with
  | none =>
    simp [dateutilParse] at h
    exact ⟨_, Or.inl h.symm⟩
  | some s =>
    by_cases hv : validTimestamp s = true
    · simp [dateutilParse, hv] at h
    · simp [dateutilParse, hv] at h
      exact ⟨s, Or.inr h.symm⟩

theorem buildItems_eq_ok (d now : String) :
    ∀ (l : List Dataset) (items : List SItem), buildItems d now l = .ok items →
      items = l.map (itemBody d now) := by
  intro l
  induction l with
  | nil =>
    intro items h
    simp [buildItems] at h
    simp [h.symm]
  | cons ds rest ih =>
    intro items h
    simp only [buildItems, itemOfDataset] at h
    cases hp : dateutilParse ds.data_begin_time with
    | error e => rw [hp] at h; simp [Except.bind] at h
    | ok t =>
      rw [hp] at h
      simp only [Except.bind] at h
      cases hb : buildItems d now rest with
      | error e => rw [hb] at h; simp at h
      | ok items' =>
        rw [hb] at h
        simp at h
        simp [h.symm, ih items' hb]

theorem buildItems_ok_of_parse (d now : String) :
    ∀ (l : List Dataset), (∀ ds ∈ l, ∃ t, dateutilParse ds.data_begin_time = .ok t) →
      buildItems d now l = .ok (l.map (itemBody d now)) := by
  intro l
  induction l with
  | nil => intro _; simp [buildItems]
  | cons ds rest ih =>
    intro h
    obtain ⟨t, ht⟩ := h ds (List.mem_cons_self _ _)
    have hrest := ih (fun x hx => h x (List.mem_cons_of_mem _ hx))
    simp [buildItems, itemOfDataset, ht, Except.bind, hrest]

theorem buildItems_mem_parse (d now : String) :
    ∀ (l : List Dataset) (items : List SItem), buildItems d now l = .ok items →
      ∀ ds ∈ l, ∃ t, dateutilParse ds.data_begin_time = .ok t := by
  intro l
  induction l with
  | nil => intro items _ ds hds; simp at hds
  | cons d0 rest ih =>
    intro items h ds hds
    simp only [buildItems, itemOfDataset] at h
    cases hp : dateutilParse d0.data_begin_time with
    | error e => rw [hp] at h; simp [Except.bind] at h
    | ok t =>
      rw [hp] at h
      simp only [Except.bind] at h
      cases hb : buildItems d now rest with
      | error e => rw [hb] at h; simp at h
      | ok items' =>
        rcases List.mem_cons.mp hds with h0 | hmem
        · exact ⟨t, h0 ▸ hp⟩
        · exact ih items' hb ds hmem

theorem buildItems_error_kind (d now : String) :
    ∀ (l : List Dataset) (e : PyError), buildItems d now l = .error e →
      ∃ m, e = .typeError m ∨ e = .parserError m := by
  intro l
  induction l with
  | nil => intro e h; simp [buildItems] at h
  | cons ds rest ih =>
    intro e h
    simp only [buildItems, itemOfDataset] at h
    cases hp : dateutilParse ds.data_begin_time with
    | error e' =>
      rw [hp] at h
      simp [Except.bind] at h
      exact h ▸ dateutilParse_error_kind _ _ hp
    | ok t =>
      rw [hp] at h
      simp only [Except.bind] at h
      cases hb : buildItems d now rest with
      | error e' =>
        rw [hb] at h
        simp at h
        exact h ▸ ih e' hb
      | ok items' => rw [hb] at h; simp at h

theorem to_stac_ok_inv (c : Collection) (data_dir now : String) (cat : SCatalog)
    (h : Collection.to_stac c data_dir now = .ok cat) :
    cat.id = c.collection_id ∧
      cat.items = c.datasets.map (itemBody (pyRstripSlash data_dir) now) := by
  simp only [Collection.to_stac] at h
  cases hb : buildItems (pyRstripSlash data_dir) now c.datasets with
  | error e => rw [hb] at h; simp [Except.bind] at h
  | ok items =>
    rw [hb] at h
    simp [Except.bind] at h
    have := buildItems_eq_ok _ _ _ _ hb
    subst this
    simp [h.symm]

theorem foldl_add_data_file (f : String × SAsset → DataFile) :
    ∀ (l : List (String × SAsset)) (ds : Dataset),
      l.foldl (fun d kv => d.add_data_file (f kv)) ds =
        { ds with datafiles := ds.datafiles ++ l.map f } := by
  intro l
  induction l with
  | nil => intro ds; simp
  | cons kv t ih =>
    intro ds
    simp only [List.foldl_cons, ih]
    simp [Dataset.add_data_file]

theorem datasetOfItem_collection_id (detected : Option String) (d : String) (item : SItem) :
    (datasetOfItem detected d item).collection_id =
      if item.collection_id.isSome = true ∧ item.collection_id ≠ detected then
        item.collection_id
      else detected := by
  simp only [datasetOfItem, foldl_add_data_file]
  by_cases hs : item.collection_id.isSome = true
  · by_cases hd : item.collection_id = detected
    · simp [hs, hd, Dataset.init]
    · simp [hs, hd, Dataset.init]
  · simp [hs, Dataset.init]

theorem datasetOfItem_datafiles (detected : Option String) (d : String) (item : SItem) :
    (datasetOfItem detected d item).datafiles =
      item.assets.map (fun kv => stacDataFileOf d kv.1 kv.2) := by
  simp only [datasetOfItem, foldl_add_data_file]
  by_cases hs : item.collection_id.isSome = true
  · by_cases hd : item.collection_id = detected
    · simp [hs, hd, Dataset.init]
    · simp [hs, hd, Dataset.init]
  · simp [hs, Dataset.init]

theorem itemAssets_mem (d : String) :
    ∀ (dfs : List DataFile) (acc : List (String × SAsset)) (x : String × SAsset),
      x ∈ dfs.foldl
          (fun acc df => pySet acc (assetKeyOf (assetHrefOf d df)) (toStacAsset d df)) acc →
      x ∈ acc ∨ ∃ df ∈ dfs, x = (assetKeyOf (assetHrefOf d df), toStacAsset d df) := by
  intro dfs
  induction dfs with
  | nil => intro acc x h; exact Or.inl h
  | cons df rest ih =>
    intro acc x h
    rcases ih _ x h with h' | ⟨df', hdf', hx⟩
    · rcases pySet_mem _ _ _ _ h' with h'' | h''
      · exact Or.inl h''
      · exact Or.inr ⟨df, List.mem_cons_self _ _, h''⟩
    · exact Or.inr ⟨df', List.mem_cons_of_mem _ hdf', hx⟩

theorem itemAssets_mem_main (d : String) (dfs : List DataFile) (x : String × SAsset)
    (h : x ∈ itemAssets d dfs) :
    ∃ df ∈ dfs, x = (assetKeyOf (assetHrefOf d df), toStacAsset d df) := by
  rcases itemAssets_mem d dfs [] x h with h' | h'
  · simp at h'
  · exact h'

theorem pyIsAbs_data_slash {s : String} {t : List Char} (h : s.data = '/' :: t) :
    pyIsAbs s = true := by
  simp [pyIsAbs, pyStartsWith, h, List.isPrefixOf]

theorem data_startsWith_slash {s : String} (h : pyStartsWith s "/" = true) :
    ∃ t, s.data = '/' :: t := by
  simp only [pyStartsWith] at h
  rw [ List.isPrefixOf_iff_prefix] at h
  rcases h with ⟨t, ht⟩
  exact ⟨t, ht.symm⟩

theorem is_uri_dot (rest : List Char) : Collection.is_uri ⟨'.' :: rest⟩ = false := by
  simp [Collection.is_uri, pyStartsWith, List.isPrefixOf]

theorem pyIsAbs_dot (rest : List Char) : pyIsAbs ⟨'.' :: rest⟩ = false := by
  simp [pyIsAbs, pyStartsWith, List.isPrefixOf]

theorem pyStartsWith_dot_slash (rest : List Char) :
    pyStartsWith ⟨'.' :: rest⟩ "/" = false := by
  simp [pyStartsWith, List.isPrefixOf]

theorem pyIsAbs_slash_append {s : String} {t : List Char} (h : s.data = '/' :: t)
    (u : String) : pyIsAbs (s ++ u) = true := by
  simp [pyIsAbs, pyStartsWith, String.data_append, h, List.isPrefixOf]

theorem pyJoin_relative {a b : String} (hb : pyStartsWith b "/" = false) (ha : a ≠ "")
    (hae : pyEndsWith a "/" = false) : pyJoin a b = a ++ "/" ++ b := by
  simp [pyJoin, hb, ha, hae]

theorem ne_empty_of_data_cons {s : String} {c : Char} {t : List Char}
    (h : s.data = c :: t) : s ≠ "" := by
  intro he
  subst he
  simp at h

/-! ## Witness and counterexample fixtures -/

/-- A datafile located under the output directory `/out`. -/
def dfW1 : DataFile :=
  { type := "application/x-netcdf", location := "/out/data/file.nc",
    roles := ["data"], title := "", description := "" }

/-- A datafile located at an s3 URI. -/
def dfW2 : DataFile :=
  { type := "", location := "s3://bucket/file2.nc",
    roles := ["metadata"], title := "", description := "" }

/-- A well-formed dataset for the round-trip witness: parseable begin time,
one datafile under the output directory `/out` and one URI datafile. -/
def dsW : Dataset :=
  { id := "granule-1"
    collection_id := some "urn:c"
    data_begin_time := some "2023-01-01T00:00:00Z"
    data_end_time := none
    data_create_time := none
    datafiles := [dfW1, dfW2]
    properties := []
    geometry := none
    bbox := none }

/-- A well-formed collection for the round-trip witness. -/
def cW : Collection :=
  { collection_id := some "urn:c", datasets := [dsW] }

/-- A dataset on which the round-trip claim fails as stated: null
`collection_id` and a datafile at an absolute non-URI location outside the
output directory. -/
def dsCex : Dataset :=
  { id := "g"
    collection_id := none
    data_begin_time := some "2023-01-01T00:00:00Z"
    data_end_time := none
    data_create_time := none
    datafiles :=
      [{ type := "", location := "/other/f", roles := ["data"],
         title := "", description := "" }]
    properties := []
    geometry := none
    bbox := none }

/-- Collection exhibiting the round-trip counterexample. -/
def cCex : Collection :=
  { collection_id := some "C", datasets := [dsCex] }

/-- A dataset with a null `data_begin_time`. -/
def dsNull : Dataset :=
  { id := "g"
    collection_id := some "C"
    data_begin_time := none
    data_end_time := none
    data_create_time := none
    datafiles := []
    properties := []
    geometry := none
    bbox := none }

/-- A collection whose only dataset has a null `data_begin_time`. -/
def cNull : Collection :=
  { collection_id := some "C", datasets := [dsNull] }

/-- An ItemCollection feature carrying no `collection` value. -/
def featNoColl : SItem :=
  { id := "i", collection_id := none, properties := [], assets := [],
    geometry := none, bbox := none }

/-- A dataset whose datafile location contains the output directory string
twice, distinguishing replace-all from replace-leading-prefix. -/
def dsHrefCex : Dataset :=
  { id := "g"
    collection_id := some "C"
    data_begin_time := some "2023-01-01T00:00:00Z"
    data_end_time := none
    data_create_time := none
    datafiles :=
      [{ type := "", location := "/d/a/d/b", roles := ["data"],
         title := "", description := "" }]
    properties := []
    geometry := none
    bbox := none }

/-- Collection exhibiting the href-rewrite counterexample. -/
def cHrefCex : Collection :=
  { collection_id := some "C", datasets := [dsHrefCex] }

/-- The catalog document `to_stac` writes for `cW` into `/out` at the fixed
timestamp used by the witnesses. -/
def catW : SCatalog :=
  { id := some "urn:c"
    items :=
      [{ id := "granule-1"
         collection_id := some "urn:c"
         properties :=
           [("datetime", JVal.str "2023-01-01T00:00:00Z"),
            ("start_datetime", JVal.str "2023-01-01T00:00:00Z"),
            ("end_datetime", JVal.null),
            ("created", JVal.str "2024-01-01T00:00:00Z"),
            ("updated", JVal.str "2024-01-01T00:00:00Z")]
         assets :=
           [("file.nc",
             { href := "./data/file.nc", media_type := none,
               roles := some ["data"],
               title := some "application/x-netcdf file",
               description := some "" }),
            ("s3://bucket/file2.nc",
             { href := "s3://bucket/file2.nc", media_type := none,
               roles := some ["metadata"], title := some " file",
               description := some "" })]
         geometry := none
         bbox := none }] }

/-! ## Claim C2 -/

/-- C2: `data_files` flattens the datafiles of all datasets in dataset
insertion order then datafile insertion order; with a non-empty `roles`
argument it keeps exactly the files whose role set has a non-empty
intersection with `roles` (any overlapping role qualifies, not subset);
`data_locations` returns exactly the location strings of the files
`data_files` returns, in the same order; both are total, so nothing
matching yields the empty list and never an error. -/
theorem data_files_data_locations_spec (c : Collection) (roles : List String) :
    Collection.data_locations c roles =
      (Collection.data_files c roles).map (fun file => file.location) ∧
    Collection.data_files c [] = (c.datasets.map (fun x => x.datafiles)).flatten ∧
    (roles ≠ [] →
      Collection.data_files c roles =
        ((c.datasets.map (fun x => x.datafiles)).flatten).filter
          (fun file => decide (∃ r ∈ file.roles, r ∈ roles))) := by
  refine ⟨?_, rfl, ?_⟩
  · by_cases h : (roles.length == 0) = true
    · simp only [Collection.data_files, Collection.data_locations, h, if_pos]
    · simp only [Collection.data_files, Collection.data_locations, h, if_neg,
        Bool.false_eq_true, if_false]
  · intro h
    have hlen : (roles.length == 0) = false := by
      simp [List.length_eq_zero, h]
    simp only [Collection.data_files, hlen, Bool.false_eq_true, if_false]
    apply List.filter_congr
    intro f _
    rw [Bool.eq_iff_iff]
    simp

/-- C2 witness: the characterization applied to the concrete collection
`cW` with the non-empty role filter `["data"]`. -/
theorem data_files_data_locations_spec_witness :
    Collection.data_locations cW ["data"] =
      (Collection.data_files cW ["data"]).map (fun file => file.location) ∧
    Collection.data_files cW ["data"] =
      ((cW.datasets.map (fun x => x.datafiles)).flatten).filter
        (fun file => decide (∃ r ∈ file.roles, r ∈ ["data"])) :=
  ⟨(data_files_data_locations_spec cW ["data"]).1,
   (data_files_data_locations_spec cW ["data"]).2.2 (by decide)⟩

/-! ## Claim C3 -/

/-- C3: `from_stac` raises exactly one domain exception kind
(`UnityException`) across all its failure modes — missing file, content
not decodable as JSON, document structurally neither Catalog nor
ItemCollection — and every call either returns a fully built Collection
or raises: no partial Collection escapes. -/
theorem from_stac_single_exception_kind (src : StacSource) (stac_dir : String) :
    ((∃ c, Collection.from_stac src stac_dir = .ok c) ∨
      (∃ m, Collection.from_stac src stac_dir = .error (.unityException m))) ∧
    (∃ m, Collection.from_stac .missing stac_dir = .error (.unityException m)) ∧
    (∃ m, Collection.from_stac .notJson stac_dir = .error (.unityException m)) ∧
    (∃ m, Collection.from_stac .otherJson stac_dir = .error (.unityException m)) := by
  refine ⟨?_, ⟨_, rfl⟩, ⟨_, rfl⟩, ⟨_, rfl⟩⟩
  cases src with
  | missing => exact Or.inr ⟨_, rfl⟩
  | notJson => exact Or.inr ⟨_, rfl⟩
  | catalogDoc cat => exact Or.inl ⟨_, rfl⟩
  | itemCollectionDoc features => exact Or.inl ⟨_, rfl⟩
  | otherJson => exact Or.inr ⟨_, rfl⟩

/-! ## Claim C4 -/

/-- C4: the ItemCollection fallback is attempted if and only if parsing
the file as a STAC Catalog fails with a `STACTypeError` (any other catalog
failure propagates without the fallback), and in fallback mode the
resulting Collection's `collection_id` is the first feature's `collection`
value when present and otherwise null. -/
theorem from_stac_fallback_iff_stac_type_error (src : StacSource) (stac_dir : String)
    (features : List SItem) :
    (fromStacAttemptedFallback src stac_dir = true ↔
      ∃ m, catalogFromFile src = .error (.stacTypeError m)) ∧
    (Collection.from_stac (.itemCollectionDoc features) stac_dir).map
        (fun c => c.collection_id) = .ok (firstFeatureCollection features) := by
  refine ⟨?_, rfl⟩
  cases src with
  | missing =>
    simp [fromStacAttemptedFallback, fromStacCore, catalogFromFile]
  | notJson =>
    simp [fromStacAttemptedFallback, fromStacCore, catalogFromFile]
  | catalogDoc cat =>
    simp [fromStacAttemptedFallback, fromStacCore, catalogFromFile]
  | itemCollectionDoc fs =>
    exact ⟨fun _ => ⟨_, rfl⟩, fun _ => rfl⟩
  | otherJson =>
    exact ⟨fun _ => ⟨_, rfl⟩, fun _ => rfl⟩

/-! ## Claim C5 -/

/-- C5: the dataset built from a parsed item has `collection_id` equal to
the item's own STAC collection id exactly when that id is present
(non-null) and different from the collection id detected for the whole
file, and equal to the detected id otherwise. -/
theorem datasetOfItem_collection_id_spec (detected : Option String) (stac_dir : String)
    (item : SItem) :
    (datasetOfItem detected stac_dir item).collection_id =
      if item.collection_id.isSome = true ∧ item.collection_id ≠ detected then
        item.collection_id
      else detected :=
  datasetOfItem_collection_id detected stac_dir item

/-! ## Claim C6 -/

/-- C6 counterexample: for an asset declaring no roles under the asset key
`"opendap"`, the remote-data-service mapper assigns roles `["opendap"]`
while the STAC reader assigns `[]` — outside the bare `data`/`metadata`
defaulting case the two paths do not assign identical roles. -/
theorem dataService_stac_roles_counterexample :
    (dataServiceDataFileOf "opendap"
        { href := "https://h/x", media_type := none, roles := none,
          title := none, description := none }).roles = ["opendap"] ∧
    (stacDataFileOf "/d" "opendap"
        { href := "https://h/x", media_type := none, roles := none,
          title := none, description := none }).roles = [] ∧
    (["opendap"] : List String) ≠ [] := by
  refine ⟨rfl, rfl, by decide⟩

/-- C6 (amended): when an asset declares no roles and its key is exactly
`"data"` or `"metadata"`, both the remote-data-service mapper and the STAC
reader default the roles to `[key]`; and whenever the asset declares a
non-empty role list the two paths assign identical roles.  For other
roleless keys the two paths differ (see the counterexample). -/
theorem dataService_stac_roles_agreement (asset : SAsset) (key stac_dir : String) :
    (asset.roles = none → (key = "data" ∨ key = "metadata") →
      (dataServiceDataFileOf key asset).roles = [key] ∧
      (stacDataFileOf stac_dir key asset).roles = [key]) ∧
    (∀ r, asset.roles = some r → r ≠ [] →
      (dataServiceDataFileOf key asset).roles = (stacDataFileOf stac_dir key asset).roles) := by
  constructor
  · intro hn hk
    constructor
    · rcases hk with h | h <;> subst h <;> simp [dataServiceDataFileOf, hn]
    · rcases hk with h | h <;> subst h <;> simp [stacDataFileOf, hn]
  · intro r hr hne
    cases r with
    | nil => exact absurd rfl hne
    | cons a t => simp [dataServiceDataFileOf, stacDataFileOf, hr]

/-- C6 witness: the agreement applied at the roleless key `"data"` and at
a declared non-empty role list. -/
theorem dataService_stac_roles_agreement_witness :
    ((dataServiceDataFileOf "data"
        { href := "h", media_type := none, roles := none, title := none,
          description := none }).roles = ["data"] ∧
      (stacDataFileOf "/d" "data"
        { href := "h", media_type := none, roles := none, title := none,
          description := none }).roles = ["data"]) ∧
    (dataServiceDataFileOf "k"
        { href := "h", media_type := none, roles := some ["r"], title := none,
          description := none }).roles =
      (stacDataFileOf "/d" "k"
        { href := "h", media_type := none, roles := some ["r"], title := none,
          description := none }).roles :=
  ⟨(dataService_stac_roles_agreement _ "data" "/d").1 rfl (Or.inl rfl),
   (dataService_stac_roles_agreement _ "k" "/d").2 ["r"] rfl (by decide)⟩

/-! ## Claim C8 -/

/-- C8 counterexample: a successful `from_stac` call in ItemCollection
mode, on a file whose first feature carries no `collection` value, returns
a Collection whose `collection_id` is null. -/
theorem from_stac_null_collection_id_counterexample :
    ∃ c, Collection.from_stac (.itemCollectionDoc [featNoColl]) "/d" = .ok c ∧
      c.collection_id = none :=
  ⟨_, rfl, rfl⟩

/-- C8 (amended): `collection_id` equals the id the Collection was
constructed with — hence non-null whenever a non-null id is supplied — and
a successful catalog-mode `from_stac` yields exactly the catalog
document's id; only the ItemCollection fallback can produce a null
`collection_id` (see the counterexample). -/
theorem collection_id_after_construction_and_parse (i : String) (cat : SCatalog)
    (d : String) :
    (Collection.init (some i)).collection_id = some i ∧
    (Collection.from_stac (.catalogDoc cat) d).map (fun c => c.collection_id)
      = .ok cat.id :=
  ⟨rfl, rfl⟩

/-! ## Claim C9 -/

/-- C9: a Collection containing a dataset whose `data_begin_time` is null
makes `to_stac` raise the underlying timestamp-parse error (`TypeError`
from the parser rejecting `None`, or a `ParserError` from an earlier
dataset) instead of writing the catalog — no default datetime is ever
substituted. -/
theorem to_stac_null_begin_time_raises (c : Collection) (data_dir now : String)
    (ds : Dataset) (hmem : ds ∈ c.datasets) (hnull : ds.data_begin_time = none) :
    ∃ e, Collection.to_stac c data_dir now = .error e ∧
      ∃ m, e = .typeError m ∨ e = .parserError m := by
  cases hb : buildItems (pyRstripSlash data_dir) now c.datasets with
  | ok items =>
    obtain ⟨t, ht⟩ := buildItems_mem_parse _ _ _ _ hb ds hmem
    rw [hnull] at ht
    simp [dateutilParse] at ht
  | error e =>
    refine ⟨e, ?_, buildItems_error_kind _ _ _ _ hb⟩
    simp [Collection.to_stac, hb, Except.bind]

/-- C9 witness: the failure exhibited on the concrete collection `cNull`. -/
theorem to_stac_null_begin_time_raises_witness :
    dsNull ∈ cNull.datasets ∧ dsNull.data_begin_time = none ∧
    ∃ e, Collection.to_stac cNull "/out" "2024-01-01T00:00:00Z" = .error e ∧
      ∃ m, e = .typeError m ∨ e = .parserError m :=
  ⟨by decide, rfl,
   to_stac_null_begin_time_raises cNull "/out" "2024-01-01T00:00:00Z" dsNull
     (by decide) rfl⟩

/-! ## Claim C10 -/

/-- C10: `add_property` stores the value under the key unconditionally —
including for the reserved keys `start_datetime`, `end_datetime`,
`created` — while the constructor excludes exactly those reserved keys
from the free-form properties map, so the reserved-key exclusion holds
only at construction time. -/
theorem add_property_stores_reserved (ds : Dataset) (k : String) (v : JVal)
    (name : String) (cid : Option String) (st et ct : Option String)
    (props : List (String × JVal)) :
    pyGet (Dataset.add_property ds k v).properties k = some v ∧
    pyGet (Dataset.init name cid st et ct (some props)).properties "start_datetime" = none ∧
    pyGet (Dataset.init name cid st et ct (some props)).properties "end_datetime" = none ∧
    pyGet (Dataset.init name cid st et ct (some props)).properties "created" = none := by
  refine ⟨pyGet_pySet_self _ _ _,
    datasetInit_reserved_none "start_datetime" (by decide) name cid st et ct props,
    datasetInit_reserved_none "end_datetime" (by decide) name cid st et ct props,
    datasetInit_reserved_none "created" (by decide) name cid st et ct props⟩

/-! ## Claim C7 -/

/-- C7 counterexample: with output directory `/d`, the datafile location
`/d/a/d/b` — whose leading `/d` prefix alone replaced by `.` would give
`./a/d/b` — is written with href `./a./b`: the writer rewrites every
occurrence of the directory string, not only the leading prefix
occurrence. -/
theorem to_stac_href_replace_counterexample :
    ∃ cat, Collection.to_stac cHrefCex "/d" "2024-01-01T00:00:00Z" = .ok cat ∧
      cat.items.map (fun item => item.assets.map (fun kv => kv.2.href)) = [["./a./b"]] ∧
      ("./a./b" : String) ≠ "./a/d/b" :=
  ⟨_, rfl, by decide, by decide⟩

/-- C7 (amended): every asset of every item of the written catalog comes
from a datafile of the corresponding dataset; its href is the datafile's
location verbatim when the location is a URI, and otherwise the location
with every occurrence of the trailing-slash-stripped output directory
replaced by `.` (Python replace-all, not only a leading-prefix rewrite);
the asset key is the href, reduced to its basename exactly when the href
starts with `./`. -/
theorem to_stac_asset_href_key_spec (c : Collection) (data_dir now : String)
    (cat : SCatalog) (hok : Collection.to_stac c data_dir now = .ok cat) :
    ∀ item ∈ cat.items, ∀ kv ∈ item.assets,
      ∃ ds ∈ c.datasets, ∃ df ∈ ds.datafiles,
        kv.2.href = (if Collection.is_uri df.location then df.location
                     else pyReplace df.location (pyRstripSlash data_dir) ".") ∧
        kv.1 = (if pyStartsWith kv.2.href "./" then pyBasename kv.2.href
                else kv.2.href) := by
  obtain ⟨hid, hitems⟩ := to_stac_ok_inv c data_dir now cat hok
  intro item hitem kv hkv
  rw [hitems] at hitem
  rcases List.mem_map.mp hitem with ⟨ds, hds, rfl⟩
  have hkv2 : kv ∈ itemAssets (pyRstripSlash data_dir) ds.datafiles := hkv
  rcases itemAssets_mem_main _ _ _ hkv2 with ⟨df, hdf, rfl⟩
  exact ⟨ds, hds, df, hdf, rfl, rfl⟩

/-- C7 witness: the href/key law applied to the written catalog of the
concrete collection `cW`. -/
theorem to_stac_asset_href_key_spec_witness :
    Collection.to_stac cW "/out" "2024-01-01T00:00:00Z" = .ok catW ∧
    ∀ item ∈ catW.items, ∀ kv ∈ item.assets,
      ∃ ds ∈ cW.datasets, ∃ df ∈ ds.datafiles,
        kv.2.href = (if Collection.is_uri df.location then df.location
                     else pyReplace df.location (pyRstripSlash "/out") ".") ∧
        kv.1 = (if pyStartsWith kv.2.href "./" then pyBasename kv.2.href
                else kv.2.href) :=
  ⟨rfl,
   to_stac_asset_href_key_spec cW "/out" "2024-01-01T00:00:00Z" catW rfl⟩

/-! ## Claim C1 -/

/-- C1 counterexample: the round-trip claim fails as stated on a collection
whose dataset has a null `collection_id` and a datafile at the absolute
non-URI location `/other/f` outside the output directory `/out`: all begin
times are parseable and non-null, yet reading back the written catalog
yields a dataset whose `collection_id` is `some "C"` instead of the
original `none`, and a datafile location `/other/f` that is not under
`/out` although its written href is not a URI. -/
theorem to_stac_from_stac_roundtrip_counterexample :
    (∀ ds ∈ cCex.datasets, ∃ t, dateutilParse ds.data_begin_time = .ok t) ∧
    ((Collection.to_stac cCex "/out" "2024-01-01T00:00:00Z").bind
        (fun cat => Collection.from_stac (.catalogDoc cat) "/out")).map
      (fun c2 => (c2.datasets.map (fun ds => ds.collection_id),
                  c2.datasets.map (fun ds => ds.datafiles.map (fun df => df.location))))
      = .ok ([some "C"], [["/other/f"]]) ∧
    cCex.datasets.map (fun ds => ds.collection_id) = [none] ∧
    Collection.is_uri "/other/f" = false ∧
    pyStartsWith "/other/f" ("/out" ++ "/") = false := by
  refine ⟨?_, rfl, by decide, by decide, by decide⟩
  intro ds hds
  rw [show cCex.datasets = [dsCex] from rfl, List.mem_singleton] at hds
  subst hds
  exact ⟨"2023-01-01T00:00:00Z", rfl⟩

/-- C1 (amended): writing a Collection via `to_stac` into a normalized
absolute directory `D` and reading the written root catalog back via
`from_stac` yields a Collection with the same `collection_id` and the same
number of datasets; each resulting dataset's `collection_id` equals the
original's provided the original dataset's `collection_id` is non-null or
equal to the collection's; and each resulting datafile's location is an
absolute path under `D` provided the original location was a URI (kept
verbatim) or lay under `D`. -/
theorem to_stac_from_stac_roundtrip (c : Collection) (D now : String)
    (hD : pyStartsWith D "/" = true)
    (hDr : pyRstripSlash D = D)
    (hDe : pyEndsWith D "/" = false)
    (hparse : ∀ ds ∈ c.datasets, ∃ t, dateutilParse ds.data_begin_time = .ok t)
    (hcid : ∀ ds ∈ c.datasets,
      ds.collection_id.isSome = true ∨ ds.collection_id = c.collection_id)
    (hloc : ∀ ds ∈ c.datasets, ∀ df ∈ ds.datafiles,
      Collection.is_uri df.location = true ∨ ∃ r, df.location = D ++ "/" ++ r) :
    ∃ cat, Collection.to_stac c D now = .ok cat ∧
      ∃ c', Collection.from_stac (.catalogDoc cat) D = .ok c' ∧
        c'.collection_id = c.collection_id ∧
        c'.datasets.length = c.datasets.length ∧
        List.Forall₂ (fun ds' ds => ds'.collection_id = ds.collection_id)
          c'.datasets c.datasets ∧
        ∀ ds' ∈ c'.datasets, ∀ df' ∈ ds'.datafiles,
          Collection.is_uri df'.location = true ∨
            (pyIsAbs df'.location = true ∧ ∃ r, df'.location = D ++ "/" ++ r) := by
  have hbuild : buildItems D now c.datasets = .ok (c.datasets.map (itemBody D now)) :=
    buildItems_ok_of_parse D now c.datasets hparse
  have hto : Collection.to_stac c D now =
      .ok { id := c.collection_id, items := c.datasets.map (itemBody D now) } := by
    simp [Collection.to_stac, hDr, hbuild, Except.bind]
  refine ⟨_, hto, _, rfl, rfl, by simp [buildCollection], ?_, ?_⟩
  · -- dataset-wise collection ids
    simp only [buildCollection]
    rw [List.map_map, List.forall₂_map_left_iff, List.forall₂_same]
    intro ds hds
    show (datasetOfItem c.collection_id D (itemBody D now ds)).collection_id
      = ds.collection_id
    rw [datasetOfItem_collection_id]
    have hcoll : (itemBody D now ds).collection_id = ds.collection_id := rfl
    rw [hcoll]
    by_cases h1 : ds.collection_id.isSome = true ∧ ds.collection_id ≠ c.collection_id
    · rw [if_pos h1]
    · rw [if_neg h1]
      rcases hcid ds hds with hs | he
      · by_cases he' : ds.collection_id = c.collection_id
        · exact he'.symm
        · exact absurd ⟨hs, he'⟩ h1
      · exact he.symm
  · -- datafile locations
    intro ds' hds' df' hdf'
    simp only [buildCollection] at hds'
    rcases List.mem_map.mp hds' with ⟨item, hitem, rfl⟩
    rcases List.mem_map.mp hitem with ⟨ds, hds, rfl⟩
    rw [datasetOfItem_datafiles] at hdf'
    rcases List.mem_map.mp hdf' with ⟨kv, hkv, rfl⟩
    have hkv2 : kv ∈ itemAssets D ds.datafiles := hkv
    rcases itemAssets_mem_main _ _ _ hkv2 with ⟨df, hdf, rfl⟩
    by_cases hu : Collection.is_uri df.location = true
    · left
      have hhref : (toStacAsset D df).href = df.location := by
        simp [toStacAsset, assetHrefOf, hu]
      show Collection.is_uri
        (stacDataFileOf D (assetKeyOf (assetHrefOf D df)) (toStacAsset D df)).location = true
      simp [stacDataFileOf, hhref, hu]
    · rcases hloc ds hds df hdf with hu' | ⟨r, hr⟩
      · exact absurd hu' hu
      right
      obtain ⟨tD, hDdata⟩ := data_startsWith_slash hD
      have hDnil : D.data ≠ [] := by rw [hDdata]; simp
      have hDne : D ≠ "" := ne_empty_of_data_cons hDdata
      have hhref : (toStacAsset D df).href = pyReplace df.location D "." := by
        simp [toStacAsset, assetHrefOf, hu]
      have hrepl : (pyReplace df.location D ".").data
          = '.' :: replaceCore D.data ['.'] ('/' :: r.data) := by
        rw [hr]
        simp only [pyReplace, hDnil, if_neg, if_false]
        have hdata : (D ++ "/" ++ r).data = D.data ++ ('/' :: r.data) := by
          simp [String.data_append]
        rw [hdata, replaceCore_append_self _ _ _ hDnil]
        rfl
      have hrefEq : pyReplace df.location D "."
          = ⟨'.' :: replaceCore D.data ['.'] ('/' :: r.data)⟩ := String.ext hrepl
      have hu2 : Collection.is_uri (pyReplace df.location D ".") = false := by
        rw [hrefEq]; exact is_uri_dot _
      have ha2 : pyIsAbs (pyReplace df.location D ".") = false := by
        rw [hrefEq]; exact pyIsAbs_dot _
      have hs2 : pyStartsWith (pyReplace df.location D ".") "/" = false := by
        rw [hrefEq]; exact pyStartsWith_dot_slash _
      have hlocEq :
          (stacDataFileOf D (assetKeyOf (assetHrefOf D df)) (toStacAsset D df)).location
            = D ++ "/" ++ pyReplace df.location D "." := by
        simp only [stacDataFileOf, hhref, hu2, ha2, Bool.false_eq_true, if_false]
        exact pyJoin_relative hs2 hDne hDe
      rw [hlocEq]
      constructor
      · have hdataAbs : (D ++ "/" ++ pyReplace df.location D ".").data
            = '/' :: (tD ++ '/' :: (pyReplace df.location D ".").data) := by
          simp [String.data_append, hDdata]
        exact pyIsAbs_data_slash hdataAbs
      · exact ⟨_, rfl⟩

/-- C1 witness: the round trip exhibited on the concrete collection `cW`
written into `/out`. -/
theorem to_stac_from_stac_roundtrip_witness :
    pyStartsWith "/out" "/" = true ∧ pyRstripSlash "/out" = "/out" ∧
    pyEndsWith "/out" "/" = false ∧
    (∀ ds ∈ cW.datasets, ∃ t, dateutilParse ds.data_begin_time = .ok t) ∧
    (∀ ds ∈ cW.datasets,
      ds.collection_id.isSome = true ∨ ds.collection_id = cW.collection_id) ∧
    (∀ ds ∈ cW.datasets, ∀ df ∈ ds.datafiles,
      Collection.is_uri df.location = true ∨ ∃ r, df.location = "/out" ++ "/" ++ r) ∧
    (∃ cat, Collection.to_stac cW "/out" "2024-01-01T00:00:00Z" = .ok cat ∧
      ∃ c', Collection.from_stac (.catalogDoc cat) "/out" = .ok c' ∧
        c'.collection_id = cW.collection_id ∧
        c'.datasets.length = cW.datasets.length ∧
        List.Forall₂ (fun ds' ds => ds'.collection_id = ds.collection_id)
          c'.datasets cW.datasets ∧
        ∀ ds' ∈ c'.datasets, ∀ df' ∈ ds'.datafiles,
          Collection.is_uri df'.location = true ∨
            (pyIsAbs df'.location = true ∧ ∃ r, df'.location = "/out" ++ "/" ++ r)) := by
  have h4 : ∀ ds ∈ cW.datasets, ∃ t, dateutilParse ds.data_begin_time = .ok t := by
    intro ds hds
    rw [show cW.datasets = [dsW] from rfl, List.mem_singleton] at hds
    subst hds
    exact ⟨"2023-01-01T00:00:00Z", rfl⟩
  have h5 : ∀ ds ∈ cW.datasets,
      ds.collection_id.isSome = true ∨ ds.collection_id = cW.collection_id := by
    intro ds hds
    rw [show cW.datasets = [dsW] from rfl, List.mem_singleton] at hds
    subst hds
    exact Or.inl (by decide)
  have h6 : ∀ ds ∈ cW.datasets, ∀ df ∈ ds.datafiles,
      Collection.is_uri df.location = true ∨ ∃ r, df.location = "/out" ++ "/" ++ r := by
    intro ds hds df hdf
    rw [show cW.datasets = [dsW] from rfl, List.mem_singleton] at hds
    subst hds
    rw [show dsW.datafiles = [dfW1, dfW2] from rfl] at hdf
    rcases List.mem_cons.mp hdf with rfl | hdf2
    · exact Or.inr ⟨"data/file.nc", by decide⟩
    · rcases List.mem_cons.mp hdf2 with rfl | hdf3
      · exact Or.inl (by decide)
      · simp at hdf3
  exact ⟨by decide, by decide, by decide, h4, h5, h6,
    to_stac_from_stac_roundtrip cW "/out" "2024-01-01T00:00:00Z"
      (by decide) (by decide) (by decide) h4 h5 h6⟩

end UnityPy
